import Mathlib

/-!
Verification of the termux-voice-code repository (claude_voice.py and
tts_mcp_server.py) against its natural-language specification.

The Python source is shallowly embedded: each side-effecting collaborator
(the external capture command, the filesystem state of the recording file,
the speech-to-text service, the external synthesis command, the terminal
mode) is passed in explicitly as a value, and each Python function becomes
a pure Lean function from those inputs to an explicit result record.
-/

namespace ClaudeVoice

/-- A byte as read from the terminal (a value in 0..255; the bound is not
needed by any claim, so bytes are plain naturals). -/
abbrev Byte := Nat

/-- One chunk of bytes returned by a single os.read call. -/
abbrev Chunk := List Byte

/-- The reserved trigger value 0x00 (Ctrl+Space), claude_voice.py line 276. -/
def triggerByte : Byte := 0

/-- UTF-8 encoding of one character, modelling the Python
text.encode(utf-8) call at claude_voice.py line 315. -/
def utf8EncodeChar (c : Char) : List Byte :=
  let n := c.toNat
  if n < 0x80 then [n]
  else if n < 0x800 then
    [0xC0 + n / 0x40, 0x80 + n % 0x40]
  else if n < 0x10000 then
    [0xE0 + n / 0x1000, 0x80 + (n / 0x40) % 0x40, 0x80 + n % 0x40]
  else
    [0xF0 + n / 0x40000, 0x80 + (n / 0x1000) % 0x40,
     0x80 + (n / 0x40) % 0x40, 0x80 + n % 0x40]

/-- UTF-8 encoding of a string as a byte chunk. -/
def utf8Bytes (s : String) : Chunk :=
  (s.data.map utf8EncodeChar).flatten

/-- Whitespace predicate of the Python str.strip() call (the ASCII
whitespace characters stripped by Python). -/
def pyIsSpace (c : Char) : Bool :=
  c == ' ' || c == '\t' || c == '\n' || c == '\r' || c == '\x0b' || c == '\x0c'

/-- Python str.strip(): drop whitespace from both ends,
used at claude_voice.py line 145 (response.text.strip()). -/
def pyStrip (s : String) : String :=
  String.mk (((s.data.dropWhile pyIsSpace).reverse.dropWhile pyIsSpace).reverse)

/-- Outcome of the external termux-microphone-record -q stop command run by
cleanup_existing_recording (claude_voice.py lines 92-98): the process may
complete with some exit code, the tool may be absent (FileNotFoundError),
the one-second timeout may expire (TimeoutExpired), or some other
exception may be raised. -/
inductive CmdOutcome where
  | exit (code : Int)
  | toolAbsent
  | timedOut
  | otherExc (msg : String)
  deriving DecidableEq, Repr

/-- The raw effect of subprocess.run inside cleanup_existing_recording:
without check=True a completed process never raises, regardless of its
exit code; an absent tool, an expired timeout, or any other failure
surfaces as a Python exception (modelled as Except.error). -/
def runStopCommand (o : CmdOutcome) : Except String Unit :=
  match o with
  | CmdOutcome.exit _ => Except.ok ()
  | CmdOutcome.toolAbsent => Except.error "FileNotFoundError"
  | CmdOutcome.timedOut => Except.error "TimeoutExpired"
  | CmdOutcome.otherExc m => Except.error m

/-- VoiceInputHandler.cleanup_existing_recording (claude_voice.py lines
92-98): the stop command runs inside a bare try/except whose handler is
pass, so every exception is swallowed and the method always returns
normally. -/
def cleanup_existing_recording (o : CmdOutcome) : Except String Unit :=
  match runStopCommand o with
  | Except.ok _ => Except.ok ()
  | Except.error _ => Except.ok ()

/-- Outcome of the speech-to-text service call made by transcribe_audio
(claude_voice.py lines 138-143): either the service returned a text, or
opening/uploading raised some exception. -/
inductive ServiceOutcome where
  | ok (text : String)
  | error (msg : String)
  deriving DecidableEq, Repr

/-- Result of VoiceInputHandler.transcribe_audio: the transcript it
returned (none on any failure) and whether the audio file still exists
when the call returns. -/
structure TranscribeResult where
  transcript : Option String
  fileExistsAfter : Bool
  deriving DecidableEq, Repr

/-- VoiceInputHandler.transcribe_audio (claude_voice.py lines 132-163).
The file is opened and uploaded; on success the text is stripped and a
non-empty result is returned (empty-after-strip yields None); any
exception yields None; the finally block unlinks the file whenever it
still exists, on every exit path. The fileExists argument is the state of
the audio file on entry (a missing file makes open raise, which the
except clause turns into None; the finally block then has nothing to
unlink). -/
def transcribe_audio (fileExists : Bool) (svc : ServiceOutcome) : TranscribeResult :=
  if fileExists then
    match svc with
    | ServiceOutcome.ok raw =>
        let text := pyStrip raw
        if text = "" then
          { transcript := none, fileExistsAfter := false }
        else
          { transcript := some text, fileExistsAfter := false }
    | ServiceOutcome.error _ =>
        { transcript := none, fileExistsAfter := false }
  else
    { transcript := none, fileExistsAfter := false }

/-- Minimum viable recording size in bytes: the literal 1000 in the size
check at claude_voice.py line 187. -/
def minRecordingSize : Nat := 1000

/-- Result of VoiceInputHandler.get_voice_input: the transcript (none on
any failure), whether transcribe_audio was ever invoked, and whether the
recording file still exists when the call returns. -/
structure SessionResult where
  transcript : Option String
  transcribeInvoked : Bool
  fileExistsAfter : Bool
  deriving DecidableEq, Repr

/-- VoiceInputHandler.get_voice_input (claude_voice.py lines 165-194).
recordStarted is whether record_audio returned a path (false models a
capture start failure, where the method returns None at once).
fileAfterStop is the observed state of the recording file after the stop
signal and the 0.5 s grace delay: none if missing, otherwise its size in
bytes. If the file is missing or smaller than minRecordingSize it is
unlinked (when present) and the method returns None without calling
transcribe_audio; otherwise the result of transcribe_audio on the
existing file is returned. -/
def get_voice_input (recordStarted : Bool) (fileAfterStop : Option Nat)
    (svc : ServiceOutcome) : SessionResult :=
  if recordStarted then
    match fileAfterStop with
    | none =>
        { transcript := none, transcribeInvoked := false, fileExistsAfter := false }
    | some size =>
        if size < minRecordingSize then
          { transcript := none, transcribeInvoked := false, fileExistsAfter := false }
        else
          let r := transcribe_audio true svc
          { transcript := r.transcript, transcribeInvoked := true,
            fileExistsAfter := r.fileExistsAfter }
  else
    { transcript := none, transcribeInvoked := false, fileExistsAfter := false }

/-- Outcome of the voice pipeline run inside the try block of
_handle_voice_input_sync: either get_voice_input returned normally with
an optional text, or some unexpected exception was raised anywhere inside
the pipeline. -/
inductive PipelineOutcome where
  | ok (text : Option String)
  | exc (msg : String)
  deriving DecidableEq, Repr

/-- Result of ClaudeVoiceTUI._handle_voice_input_sync: the bytes it
returns to stdin_read (none when there is no text or an exception was
caught), the terminal mode in force while capturing, and the terminal
mode in force when the method returns. -/
structure HandlerResult where
  voiceText : Option Chunk
  modeDuringCapture : Nat
  finalMode : Nat
  deriving DecidableEq, Repr

/-- ClaudeVoiceTUI._handle_voice_input_sync (claude_voice.py lines
289-325). The terminal mode is an abstract value: initMode is what
termios.tcgetattr reads on entry (saved as old_tty), cbreakMode is what
tty.setcbreak installs for the capture. On a normal pipeline outcome a
non-empty text is UTF-8 encoded and returned, an empty or absent text
yields none; the except clause catches any exception and yields none;
the finally block unconditionally re-installs old_tty, so on every exit
path the final mode is the saved initial mode. -/
def handle_voice_input_sync (initMode cbreakMode : Nat)
    (outcome : PipelineOutcome) : HandlerResult :=
  let old_tty := initMode
  let voiceText : Option Chunk :=
    match outcome with
    | PipelineOutcome.ok (some text) =>
        if text = "" then none else some (utf8Bytes text)
    | PipelineOutcome.ok none => none
    | PipelineOutcome.exc _ => none
  { voiceText := voiceText, modeDuringCapture := cbreakMode, finalMode := old_tty }

/-- Result of ClaudeVoiceTUI.stdin_read: the bytes forwarded to the
spawned child process, and whether a voice session was started (whether
_handle_voice_input_sync was invoked). -/
structure StdinReadResult where
  output : Chunk
  sessionStarted : Bool
  deriving DecidableEq, Repr

/-- ClaudeVoiceTUI.stdin_read (claude_voice.py lines 270-287) on one
chunk. If the chunk contains the trigger byte 0x00, the voice handler is
invoked; the trigger bytes are removed from the chunk by
data.replace; then, if the handler produced a truthy (non-empty) byte
string, that byte string ALONE is returned, otherwise the stripped chunk
is returned. A chunk without the trigger byte is returned unchanged and
the handler is never invoked. voiceText is the voiceText field of the
handler result. -/
def stdin_read (data : Chunk) (voiceText : Option Chunk) : StdinReadResult :=
  if triggerByte ∈ data then
    let stripped := data.filter (fun b => b ≠ triggerByte)
    match voiceText with
    | some t => if t.isEmpty then ⟨stripped, true⟩ else ⟨t, true⟩
    | none => ⟨stripped, true⟩
  else
    ⟨data, false⟩

/-- TTS configuration of tts_mcp_server.py (lines 22-23): the pitch and
rate values read from the tts section of voice_config.ini, already
rendered by str() as they appear in the command line. -/
structure TTSConfig where
  pitch : String
  rate : String
  deriving DecidableEq, Repr

/-- The synthesis command built by speak (tts_mcp_server.py lines 45-50). -/
def buildSpeakCmd (cfg : TTSConfig) (text : String) : List String :=
  ["termux-tts-speak", "-p", cfg.pitch, "-r", cfg.rate, text]

/-- Outcome of the subprocess.run call inside speak: the process
completed with a return code and captured stderr, the 30 s timeout
expired (TimeoutExpired), or some other exception was raised. -/
inductive RunOutcome where
  | completed (returncode : Int) (stderr : String)
  | timedOut
  | exc (msg : String)
  deriving DecidableEq, Repr

/-- The text preview used in the success message of speak: the first 50
characters, with an ellipsis appended when the text is longer. -/
def speakPreview (text : String) : String :=
  text.take 50 ++ (if text.length > 50 then "..." else "")

/-- The speak tool of tts_mcp_server.py (lines 29-61): zero exit yields a
success message, nonzero exit yields a TTS error carrying stderr, an
expired timeout yields the fixed timeout message, and any other
exception yields a TTS error carrying its text; every branch returns a
status string and no exception propagates. -/
def speak (cfg : TTSConfig) (text : String) (run : RunOutcome) : String :=
  let _cmd := buildSpeakCmd cfg text
  match run with
  | RunOutcome.completed rc stderr =>
      if rc = 0 then "Successfully spoke: " ++ speakPreview text
      else "TTS error: " ++ stderr
  | RunOutcome.timedOut => "TTS error: timeout (speech took too long)"
  | RunOutcome.exc m => "TTS error: " ++ m

end ClaudeVoice

namespace ClaudeVoice

/-- C2: a chunk without the trigger byte 0x00 is forwarded exactly as it
was read, and no voice session is started, whatever the voice handler
would have produced. -/
theorem claim_C2_passthrough_identity (data : Chunk) (voiceText : Option Chunk)
    (h : triggerByte ∉ data) :
    (stdin_read data voiceText).output = data ∧
    (stdin_read data voiceText).sessionStarted = false := by
  unfold stdin_read
  simp [h]

/-- C2 witness: the chunk hi contains no trigger byte and passes through
unchanged with no session started. -/
theorem claim_C2_witness :
    triggerByte ∉ utf8Bytes "hi" ∧
    (stdin_read (utf8Bytes "hi") (some (utf8Bytes "ignored"))).output = utf8Bytes "hi" ∧
    (stdin_read (utf8Bytes "hi") (some (utf8Bytes "ignored"))).sessionStarted = false :=
  ⟨by decide,
   (claim_C2_passthrough_identity (utf8Bytes "hi") (some (utf8Bytes "ignored")) (by decide)).1,
   (claim_C2_passthrough_identity (utf8Bytes "hi") (some (utf8Bytes "ignored")) (by decide)).2⟩

/-- C1 (counterexample): on the chunk hello 0x00 world with a voice
handler that produced the transcript bytes of "transcribed text",
stdin_read does NOT return hello ++ transcript ++ world: the surrounding
ordinary bytes are dropped and only the transcript bytes are returned
(claude_voice.py line 285 returns voice_text alone). -/
theorem claim_C1_counterexample :
    (stdin_read (utf8Bytes "hello" ++ [triggerByte] ++ utf8Bytes "world")
        (some (utf8Bytes "transcribed text"))).output
      ≠ utf8Bytes "hello" ++ utf8Bytes "transcribed text" ++ utf8Bytes "world" := by
  decide

/-- C1 (amended): when a chunk contains the trigger byte and the voice
handler produced a non-empty transcript byte string, the output of
stdin_read is exactly that transcript byte string; the surrounding
ordinary bytes of the chunk are discarded, not preserved. -/
theorem claim_C1_transcript_replaces_chunk (data t : Chunk)
    (hdata : triggerByte ∈ data) (ht : t ≠ []) :
    (stdin_read data (some t)).output = t := by
  have ht' : t.isEmpty = false := by
    cases t with
    | nil => exact absurd rfl ht
    | cons a l => rfl
  unfold stdin_read
  simp [hdata, ht']

/-- C1 witness: on the chunk hello 0x00 world with transcript
"transcribed text", the output is exactly the transcript bytes. -/
theorem claim_C1_witness :
    triggerByte ∈ (utf8Bytes "hello" ++ [triggerByte] ++ utf8Bytes "world") ∧
    utf8Bytes "transcribed text" ≠ ([] : Chunk) ∧
    (stdin_read (utf8Bytes "hello" ++ [triggerByte] ++ utf8Bytes "world")
        (some (utf8Bytes "transcribed text"))).output = utf8Bytes "transcribed text" :=
  ⟨by decide, by decide,
   claim_C1_transcript_replaces_chunk
     (utf8Bytes "hello" ++ [triggerByte] ++ utf8Bytes "world")
     (utf8Bytes "transcribed text") (by decide) (by decide)⟩

/-- C3: when capture start fails, the whole pipeline produces no
transcript, and stdin_read forwards the chunk with every trigger byte
removed, the remaining bytes kept (as a sublist, hence in their original
relative order) and none of them being the trigger byte. -/
theorem claim_C3_no_transcript_strips_trigger (data : Chunk) (h : triggerByte ∈ data)
    (fs : Option Nat) (svc : ServiceOutcome) (im cm : Nat) :
    (get_voice_input false fs svc).transcript = none ∧
    (stdin_read data (handle_voice_input_sync im cm
        (PipelineOutcome.ok (get_voice_input false fs svc).transcript)).voiceText).output
      = data.filter (fun b => b ≠ triggerByte) ∧
    triggerByte ∉ (stdin_read data (handle_voice_input_sync im cm
        (PipelineOutcome.ok (get_voice_input false fs svc).transcript)).voiceText).output ∧
    List.Sublist ((stdin_read data (handle_voice_input_sync im cm
        (PipelineOutcome.ok (get_voice_input false fs svc).transcript)).voiceText).output)
      data := by
  have hsess : (get_voice_input false fs svc).transcript = none := by
    simp [get_voice_input]
  have hout : (stdin_read data (handle_voice_input_sync im cm
      (PipelineOutcome.ok (get_voice_input false fs svc).transcript)).voiceText).output
      = data.filter (fun b => b ≠ triggerByte) := by
    rw [hsess]
    unfold handle_voice_input_sync stdin_read
    simp [h]
  refine ⟨hsess, hout, ?_, ?_⟩
  · rw [hout]
    simp [List.mem_filter]
  · rw [hout]
    exact List.filter_sublist data

/-- C3 witness: the chunk 0x00 hi with a failed capture start yields the
chunk hi. -/
theorem claim_C3_witness :
    triggerByte ∈ (triggerByte :: utf8Bytes "hi") ∧
    (stdin_read (triggerByte :: utf8Bytes "hi") (handle_voice_input_sync 5 7
        (PipelineOutcome.ok
          (get_voice_input false none (ServiceOutcome.error "no recorder")).transcript)).voiceText).output
      = utf8Bytes "hi" := by
  have h := claim_C3_no_transcript_strips_trigger (triggerByte :: utf8Bytes "hi")
      (by decide) none (ServiceOutcome.error "no recorder") 5 7
  exact ⟨by decide, by rw [h.2.1]; decide⟩

/-- Helper: transcribe_audio leaves no audio file behind on any service
outcome, whether or not the file existed on entry (the finally block at
claude_voice.py lines 160-163). -/
theorem transcribe_audio_deletes_file (fileExists : Bool) (svc : ServiceOutcome) :
    (transcribe_audio fileExists svc).fileExistsAfter = false := by
  cases fileExists with
  | false => rfl
  | true =>
      cases svc with
      | ok raw =>
          by_cases hstrip : pyStrip raw = "" <;> simp [transcribe_audio, hstrip]
      | error m => rfl

/-- C4: when the recording file is missing after stop, or exists but is
smaller than the minimum-size threshold, the session returns none, the
transcription client is never invoked, and no recording file remains. -/
theorem claim_C4_short_recording_discarded (fs : Option Nat) (svc : ServiceOutcome)
    (h : ∀ sz, fs = some sz → sz < minRecordingSize) :
    (get_voice_input true fs svc).transcript = none ∧
    (get_voice_input true fs svc).transcribeInvoked = false ∧
    (get_voice_input true fs svc).fileExistsAfter = false := by
  cases fs with
  | none => simp [get_voice_input]
  | some sz =>
      have hsz := h sz rfl
      simp [get_voice_input, hsz]

/-- C4 witness: a 999-byte recording yields none, never invokes
transcription, and is deleted. -/
theorem claim_C4_witness :
    (get_voice_input true (some 999) (ServiceOutcome.ok "hello")).transcript = none ∧
    (get_voice_input true (some 999) (ServiceOutcome.ok "hello")).transcribeInvoked = false ∧
    (get_voice_input true (some 999) (ServiceOutcome.ok "hello")).fileExistsAfter = false :=
  claim_C4_short_recording_discarded (some 999) (ServiceOutcome.ok "hello")
    (fun sz hsz => by cases hsz; decide)

/-- C5: after transcribe_audio returns on an existing audio file, the
file no longer exists, on every service outcome: successful
transcription, empty-after-strip result, and service or transport
error. -/
theorem claim_C5_transcribe_deletes_file (svc : ServiceOutcome) :
    (transcribe_audio true svc).fileExistsAfter = false :=
  transcribe_audio_deletes_file true svc

/-- C6: cleanup_existing_recording never raises, whatever the external
stop command does (any exit code, absent tool, expired timeout, or any
other exception): the bare except clause swallows every failure. -/
theorem claim_C6_stop_never_raises (o : CmdOutcome) :
    cleanup_existing_recording o = Except.ok () := by
  cases o <;> rfl

/-- C7: on every exit path of _handle_voice_input_sync, including an
unexpected exception raised anywhere inside the voice pipeline, the
terminal mode on return equals the mode saved before the capture
began. -/
theorem claim_C7_terminal_mode_restored (initMode cbreakMode : Nat)
    (outcome : PipelineOutcome) :
    (handle_voice_input_sync initMode cbreakMode outcome).finalMode = initMode :=
  rfl

/-- C8: a service result that is empty after stripping whitespace makes
transcribe_audio report no transcript, and consequently get_voice_input
returns none, for every capture state and recording file state. -/
theorem claim_C8_empty_after_strip (raw : String) (h : pyStrip raw = "")
    (recordStarted : Bool) (fs : Option Nat) :
    (transcribe_audio true (ServiceOutcome.ok raw)).transcript = none ∧
    (get_voice_input recordStarted fs (ServiceOutcome.ok raw)).transcript = none := by
  have h1 : (transcribe_audio true (ServiceOutcome.ok raw)).transcript = none := by
    simp [transcribe_audio, h]
  refine ⟨h1, ?_⟩
  cases recordStarted with
  | false => simp [get_voice_input]
  | true =>
      cases fs with
      | none => simp [get_voice_input]
      | some sz =>
          by_cases hsz : sz < minRecordingSize
          · simp [get_voice_input, hsz]
          · simp [get_voice_input, hsz, h1]

/-- C8 witness: a whitespace-only service result on a 2000-byte recording
yields none from both the transcription client and the session. -/
theorem claim_C8_witness :
    pyStrip "   " = "" ∧
    (transcribe_audio true (ServiceOutcome.ok "   ")).transcript = none ∧
    (get_voice_input true (some 2000) (ServiceOutcome.ok "   ")).transcript = none :=
  ⟨by decide,
   (claim_C8_empty_after_strip "   " (by decide) true (some 2000)).1,
   (claim_C8_empty_after_strip "   " (by decide) true (some 2000)).2⟩

/-- C9: speak returns a status string on every outcome of the external
synthesis command: the success message exactly when the exit code is
zero, a TTS error carrying stderr on a nonzero exit, the distinct fixed
timeout message on an expired timeout, and a TTS error carrying the
exception text otherwise; and the synthesis command is built with the
configured pitch and rate values as the arguments of its -p and -r
flags. -/
theorem claim_C9_speak_total_status (cfg : TTSConfig) (text stderr m : String)
    (rc : Int) :
    speak cfg text (RunOutcome.completed rc stderr)
      = (if rc = 0 then "Successfully spoke: " ++ speakPreview text
         else "TTS error: " ++ stderr) ∧
    speak cfg text RunOutcome.timedOut = "TTS error: timeout (speech took too long)" ∧
    speak cfg text (RunOutcome.exc m) = "TTS error: " ++ m ∧
    (buildSpeakCmd cfg text)[1]? = some "-p" ∧
    (buildSpeakCmd cfg text)[2]? = some cfg.pitch ∧
    (buildSpeakCmd cfg text)[3]? = some "-r" ∧
    (buildSpeakCmd cfg text)[4]? = some cfg.rate :=
  ⟨rfl, rfl, rfl, rfl, rfl, rfl, rfl⟩

/-- C10: the minimum-viable-size threshold is exactly 1000 bytes: for a
recording file that exists after the grace delay, the session invokes the
transcription client if and only if the file size is at least 1000
bytes; a smaller file yields none and is deleted. -/
theorem claim_C10_threshold_is_1000 (sz : Nat) (svc : ServiceOutcome) :
    minRecordingSize = 1000 ∧
    ((get_voice_input true (some sz) svc).transcribeInvoked = true ↔ 1000 ≤ sz) ∧
    (get_voice_input true (some sz) svc).transcript
      = (if 1000 ≤ sz then (transcribe_audio true svc).transcript else none) ∧
    (get_voice_input true (some sz) svc).fileExistsAfter = false := by
  by_cases hsz : sz < 1000
  · have hle : ¬(1000 ≤ sz) := Nat.not_le.mpr hsz
    refine ⟨rfl, ?_, ?_, ?_⟩ <;>
      simp [get_voice_input, minRecordingSize, hsz, hle]
  · have hle : 1000 ≤ sz := Nat.not_lt.mp hsz
    refine ⟨rfl, ?_, ?_, ?_⟩ <;>
      simp [get_voice_input, minRecordingSize, hsz, hle,
        transcribe_audio_deletes_file]

end ClaudeVoice
